import Mathlib

/-!
# Verification of the HRVSTR python-sentiment-service core

Shallow embedding of the ensemble scoring and caching subsystem of the
`python-sentiment-service` repository, together with proofs relating the
embedded code to its natural-language specification.

Conventions used throughout:
* Python floats are modelled as exact rationals (`ℚ`); the one place the code
  takes a square root (`np.std` inside the model-agreement computation) is
  modelled over the reals (`ℝ`) with `Real.sqrt`.
* Python dicts are modelled as association lists (`List (String × _)`), which
  preserves the insertion-order iteration semantics of Python dicts.
* Text is modelled as `String` / `List Char`; the regular expressions compiled
  in `text_preprocessor.py` are embedded as direct character scanners with the
  exact matching semantics of the compiled patterns (including the greedy /
  word-boundary behaviour relevant to the inputs considered).
* Wall-clock time is modelled as a natural number of seconds.
-/

namespace HRVSTR

/-! ## sentiment_analyzer.py — data model

A value of the per-model result dict produced by `_analyze_with_*`.  The field
`hasError` models the presence of the `'error'` key in the dict (the code only
tests membership of that key, never its value). -/

structure ModelResult where
  score : ℚ
  confidence : ℚ
  hasError : Bool
deriving DecidableEq, Repr

/-- `AdvancedSentimentAnalyzer.model_weights` (sentiment_analyzer.py lines 35-40):
`{'finbert': 0.4, 'vader': 0.3, 'textblob': 0.2, 'financial_lexicon': 0.1}`. -/
def model_weights : List (String × ℚ) :=
  [("finbert", 2/5), ("vader", 3/10), ("textblob", 1/5), ("financial_lexicon", 1/10)]

/-- `model_name in self.model_weights` / `self.model_weights[model_name]`. -/
def weightOf (model_name : String) : Option ℚ :=
  model_weights.lookup model_name

/-- `AdvancedSentimentAnalyzer._score_to_label` (sentiment_analyzer.py lines 337-344). -/
def score_to_label (score : ℚ) : String :=
  if score > 1/10 then "bullish"
  else if score < -(1/10) then "bearish"
  else "neutral"

/-- `ResponseFormatter._score_to_label` (response_formatter.py lines 326-341). -/
def formatter_score_to_label (score : ℚ) : String :=
  if score > 1/10 then "bullish"
  else if score < -(1/10) then "bearish"
  else "neutral"

/-- Mean of a list of rationals; `np.mean` on a nonempty list of floats. -/
def listMean (xs : List ℚ) : ℚ := xs.sum / xs.length

/-- The accumulation loop of `_calculate_ensemble_sentiment`
(sentiment_analyzer.py lines 283-288): iterate over `model_results.items()`,
and for every entry with no `'error'` key whose name is in `model_weights`,
accumulate `score * weight` , the weight, and the confidence.  The Python
`for` loop is rendered as structural recursion; addition of rationals is
commutative and associative, and the confidence list is built in the same
iteration order. -/
def ensemble_loop : List (String × ModelResult) → ℚ × ℚ × List ℚ
  | [] => (0, 0, [])
  | (model_name, r) :: rest =>
    let acc := ensemble_loop rest
    match weightOf model_name, r.hasError with
    | some w, false => (r.score * w + acc.1, w + acc.2.1, r.confidence :: acc.2.2)
    | _, _ => acc

/-- The scores collected by `_calculate_model_agreement`
(sentiment_analyzer.py lines 322-325): scores of all results without an
`'error'` key (the weight table plays no role here). -/
def successful_scores (model_results : List (String × ModelResult)) : List ℚ :=
  (model_results.filter (fun r => !r.2.hasError)).map (fun r => r.2.score)

/-- Real-valued mean of a list of rationals (`np.mean` inside `np.std`). -/
noncomputable def np_mean_r (xs : List ℚ) : ℝ :=
  (xs.map (fun x => (x : ℝ))).sum / xs.length

/-- `np.std` on a list of floats: the population standard deviation, i.e. the
square root of the mean of squared deviations from the mean (`ddof = 0`). -/
noncomputable def np_std (xs : List ℚ) : ℝ :=
  Real.sqrt ((xs.map (fun x => ((x : ℝ) - np_mean_r xs) ^ 2)).sum / xs.length)

/-- `AdvancedSentimentAnalyzer._calculate_model_agreement`
(sentiment_analyzer.py lines 320-335). -/
noncomputable def calculate_model_agreement
    (model_results : List (String × ModelResult)) : ℝ :=
  let scores := successful_scores model_results
  if scores.length < 2 then 1/2
  else max 0 (1 - np_std scores / 2)

/-- The ensemble dict returned by `_calculate_ensemble_sentiment`. -/
structure EnsembleResult where
  score : ℚ
  label : String
  confidence : ℚ
  model_agreement : ℝ

/-- `AdvancedSentimentAnalyzer._calculate_ensemble_sentiment`
(sentiment_analyzer.py lines 277-302). -/
noncomputable def calculate_ensemble_sentiment
    (model_results : List (String × ModelResult)) : EnsembleResult :=
  let acc := ensemble_loop model_results
  let final_score := if acc.2.1 > 0 then acc.1 / acc.2.1 else 0
  { score := final_score
    label := score_to_label final_score
    confidence := if acc.2.2 = [] then 0 else listMean acc.2.2
    model_agreement := calculate_model_agreement model_results }

/-! Specification-side formulations used to state the weighted-mean claim:
the contributing results and the numerator/denominator sums, written as the
spec writes them (sums over the error-free results whose id is in the weight
table). -/

/-- The results that contribute to the ensemble weighted mean per the spec:
error-free and with an id present in the weight table. -/
def contributing (model_results : List (String × ModelResult)) :
    List (String × ModelResult) :=
  model_results.filter (fun r => !r.2.hasError && (weightOf r.1).isSome)

/-- Spec-side numerator: `Σ (score_i * weight_i)` over contributing results. -/
def weighted_sum_spec (model_results : List (String × ModelResult)) : ℚ :=
  ((contributing model_results).map
    (fun r => r.2.score * (weightOf r.1).getD 0)).sum

/-- Spec-side denominator: `Σ weight_i` over contributing results. -/
def total_weight_spec (model_results : List (String × ModelResult)) : ℚ :=
  ((contributing model_results).map (fun r => (weightOf r.1).getD 0)).sum

/-- Spec-side population standard deviation used to state the agreement claim:
`sqrt(Σ (x_i − μ)² / n)` with `μ = Σ x_i / n`. -/
noncomputable def population_std (xs : List ℚ) : ℝ :=
  Real.sqrt
    ((xs.map (fun x => ((x : ℝ) - ((xs.map (fun y => (y : ℝ))).sum / xs.length)) ^ 2)).sum
      / xs.length)

/-! ## response_formatter.py — enhanced confidence (lines 203-240) -/

/-- `ResponseFormatter.source_weights` (response_formatter.py lines 25-32). -/
def source_weights : List (String × ℚ) :=
  [("reddit", 7/10), ("finviz", 9/10), ("news", 17/20),
   ("yahoo", 4/5), ("twitter", 3/5), ("unknown", 1/2)]

/-- `self.source_weights.get(source, 0.5)`. -/
def sourceWeightOf (source : String) : ℚ :=
  (source_weights.lookup source).getD (1/2)

/-- A value of the entities dict: a list of strings, or any non-list value
(the code only distinguishes lists, via `isinstance(v, list)`). -/
inductive EntityValue
  | strs : List String → EntityValue
  | other : EntityValue
deriving DecidableEq, Repr

/-- `len(v) if isinstance(v, list) else 0`. -/
def entityValueLen : EntityValue → ℕ
  | .strs xs => xs.length
  | .other => 0

/-- `sum(len(v) if isinstance(v, list) else 0 for v in entities.values())`
(response_formatter.py line 235). -/
def entity_count (entities : List (String × EntityValue)) : ℕ :=
  (entities.map (fun kv => entityValueLen kv.2)).sum

/-- `ResponseFormatter._calculate_enhanced_confidence`
(response_formatter.py lines 203-240), translated statement by statement. -/
def calculate_enhanced_confidence (base_confidence : ℚ) (source : String)
    (text_length : ℕ) (entities : List (String × EntityValue)) : ℚ :=
  let confidence := base_confidence
  let source_weight := sourceWeightOf source
  let confidence := confidence * (1/2 + source_weight * (1/2))
  let length_factor : ℚ :=
    if 50 ≤ text_length ∧ text_length ≤ 200 then 1
    else if text_length < 50 then 7/10 + ((text_length : ℚ) / 50) * (3/10)
    else max (4/5) (1 - ((text_length : ℚ) - 200) / 1000)
  let confidence := confidence * length_factor
  let ec := entity_count entities
  let confidence :=
    if ec > 0 then confidence * min (6/5) (1 + (ec : ℚ) * (1/20)) else confidence
  min confidence 1

/-! Specification-side factors for the enhanced-confidence claim, written as
the spec phrases them. -/

/-- Spec-side source factor: `0.5 + 0.5 * reliability(source)`, unknown
sources defaulting to reliability 0.5. -/
def f_source_spec (source : String) : ℚ :=
  1/2 + (1/2) * sourceWeightOf source

/-- Spec-side length factor: 1.0 on [50,200]; `0.7 + (len/50)*0.3` below 50;
`max(0.8, 1 − (len−200)/1000)` above 200. -/
def f_length_spec (text_length : ℕ) : ℚ :=
  if 50 ≤ text_length ∧ text_length ≤ 200 then 1
  else if text_length < 50 then 7/10 + ((text_length : ℚ) / 50) * (3/10)
  else max (4/5) (1 - ((text_length : ℚ) - 200) / 1000)

/-- Spec-side entity factor: `min(1.2, 1 + 0.05*entityCount)` when at least
one entity was extracted, `1.0` otherwise. -/
def f_entity_spec (entities : List (String × EntityValue)) : ℚ :=
  if entity_count entities > 0
  then min (6/5) (1 + (entity_count entities : ℚ) * (1/20))
  else 1

/-! ## Batch pairing (sentiment_analyzer.py lines 144-154,
response_formatter.py lines 92-118)

`analyze_single` invokes the external model providers and is out of scope;
`analyze_batch` is embedded parametrically in the per-item analysis function
`f`.  Likewise `format_single_result` is abstracted as `g` in the embedding of
`format_batch_results` (the `source` argument, passed through unchanged, is
folded into `g`). -/

/-- `tickers[i] if tickers and i < len(tickers) else None`
(sentiment_analyzer.py line 150 and response_formatter.py line 111).
`tickers = None` and `tickers = []` are both falsy; for `[]` no index is in
range, so the emptiness test is subsumed by the bounds test. -/
def ticker_for (tickers : Option (List String)) (i : ℕ) : Option String :=
  match tickers with
  | none => none
  | some ts => if h : i < ts.length then some (ts.get ⟨i, h⟩) else none

/-- Spec-side pairing: the item at index `i` is paired with `tickers[i]` when
`i` is a valid index of the ticker list, and with `None` otherwise (an absent
ticker list pairs everything with `None`). -/
def spec_pairing (tickers : Option (List String)) (i : ℕ) : Option String :=
  (tickers.getD [])[i]?

/-- The indexed loop of `AdvancedSentimentAnalyzer.analyze_batch`
(lines 147-154): `for i, text in enumerate(texts)` starting at index `i`. -/
def analyze_batch_from {α : Type} (f : String → Option String → α)
    (tickers : Option (List String)) : ℕ → List String → List α
  | _, [] => []
  | i, text :: rest =>
    f text (ticker_for tickers i) :: analyze_batch_from f tickers (i + 1) rest

/-- `AdvancedSentimentAnalyzer.analyze_batch` (sentiment_analyzer.py lines
144-154), parametric in the single-item analysis `f := analyze_single`. -/
def analyze_batch {α : Type} (f : String → Option String → α)
    (texts : List String) (tickers : Option (List String)) : List α :=
  analyze_batch_from f tickers 0 texts

/-- `original_texts[i] if i < len(original_texts) else ""`
(response_formatter.py line 112). -/
def text_for (original_texts : List String) (i : ℕ) : String :=
  if h : i < original_texts.length then original_texts.get ⟨i, h⟩ else ""

/-- The indexed loop of `ResponseFormatter.format_batch_results`
(lines 110-115), parametric in `g := format_single_result`. -/
def format_batch_from {α β : Type} (g : α → String → Option String → β)
    (original_texts : List String) (tickers : Option (List String)) :
    ℕ → List α → List β
  | _, [] => []
  | i, r :: rest =>
    g r (text_for original_texts i) (ticker_for tickers i) ::
      format_batch_from g original_texts tickers (i + 1) rest

/-- The per-item formatting pass of `ResponseFormatter.format_batch_results`
(response_formatter.py lines 106-115). -/
def format_batch_results {α β : Type} (g : α → String → Option String → β)
    (analysis_results : List α) (original_texts : List String)
    (tickers : Option (List String)) : List β :=
  format_batch_from g original_texts tickers 0 analysis_results

/-! ## cache_manager.py — in-process fallback backend (Redis unavailable)

The fallback stores entries in `self._memory_cache` with a parallel timestamp
dict `self._memory_cache_timestamps`; `self._last_cleanup` throttles the
periodic sweep.  The payload type is a parameter `α` (the code caches
arbitrary JSON dicts).  The ISO timestamp string written into `cached_at` is
modelled by the numeric clock value itself. -/

/-- The wrapper dict built by `CacheManager.set` (cache_manager.py lines
126-131): `{'data': value, 'cached_at': ..., 'ttl': ttl}`. -/
structure CachedValue (α : Type) where
  data : α
  cached_at : ℕ
  ttl : ℕ
deriving DecidableEq, Repr

/-- The in-process fallback state: `_memory_cache`, `_memory_cache_timestamps`
and `_last_cleanup` (absent until the first sweep runs). -/
structure MemCache (α : Type) where
  cache : List (String × CachedValue α)
  timestamps : List (String × ℕ)
  last_cleanup : Option ℕ
deriving DecidableEq, Repr

/-- `self.default_ttl = 1800` (cache_manager.py line 24). -/
def default_ttl : ℕ := 1800

/-- The state right after `__init__` falls back to the in-memory cache. -/
def mem_init {α : Type} : MemCache α := ⟨[], [], none⟩

/-- Python dict assignment `m[k] = v` on an association list. -/
def assoc_set {β : Type} (m : List (String × β)) (k : String) (v : β) :
    List (String × β) :=
  m.filter (fun kv => !(kv.1 == k)) ++ [(k, v)]

/-- Python `del m[k]` on an association list. -/
def assoc_del {β : Type} (m : List (String × β)) (k : String) :
    List (String × β) :=
  m.filter (fun kv => !(kv.1 == k))

/-- `CacheManager._cleanup_memory_cache` (cache_manager.py lines 264-291):
initialize `_last_cleanup` if absent, return unless 5 minutes (300 s) have
passed, otherwise purge every entry whose age reaches `default_ttl`. -/
def cleanup_memory_cache {α : Type} (st : MemCache α) (now : ℕ) : MemCache α :=
  let last := st.last_cleanup.getD now
  if now - last < 300 then { st with last_cleanup := some last }
  else
    let expired := (st.timestamps.filter (fun kv => default_ttl ≤ now - kv.2)).map
      (fun kv => kv.1)
    { cache := st.cache.filter (fun kv => !(expired.contains kv.1))
      timestamps := st.timestamps.filter (fun kv => !(expired.contains kv.1))
      last_cleanup := some now }

/-- `CacheManager.set` on the in-process backend (cache_manager.py lines
111-152).  `ttl = ttl or self.default_ttl`: a `None` or `0` argument falls
back to `default_ttl` (Python `or` on a falsy value).  The wrapper value is
stored, the timestamp recorded, and the periodic sweep invoked; the method
then returns `True` (success is unconditional on this path, so only the new
state is returned). -/
def mem_set {α : Type} (st : MemCache α) (key : String) (value : α)
    (ttl : Option ℕ) (now : ℕ) : MemCache α :=
  let t := match ttl with
    | some n => if n = 0 then default_ttl else n
    | none => default_ttl
  let cached_value : CachedValue α := ⟨value, now, t⟩
  let st' : MemCache α :=
    { st with
      cache := assoc_set st.cache key cached_value
      timestamps := assoc_set st.timestamps key now }
  cleanup_memory_cache st' now

/-- `CacheManager.get` on the in-process backend (cache_manager.py lines
91-105): if the key is present and its age is below `self.default_ttl` the
stored wrapper is returned; otherwise the entry is removed and the result is
`None`.  Note the expiry test compares against `default_ttl`, and the value
returned on a hit is the stored wrapper `{'data': ..., 'cached_at': ...,
'ttl': ...}`. -/
def mem_get {α : Type} (st : MemCache α) (key : String) (now : ℕ) :
    Option (CachedValue α) × MemCache α :=
  match st.cache.lookup key with
  | none => (none, st)
  | some cached_value =>
    match st.timestamps.lookup key with
    | some timestamp =>
      if now - timestamp < default_ttl then (some cached_value, st)
      else
        (none,
          { st with
            cache := assoc_del st.cache key
            timestamps := assoc_del st.timestamps key })
    | none =>
      (none,
        { st with
          cache := assoc_del st.cache key
          timestamps := assoc_del st.timestamps key })

/-! ## cache_manager.py — `generate_cache_key` (lines 46-72)

The key is built by sorting the texts, the tickers and the options items,
serializing `{'texts': ..., 'tickers': ..., 'source': ..., 'options': ...}`
with `json.dumps(..., sort_keys=True)`, hashing the UTF-8 bytes with SHA-256
and keeping the first 16 hex digits, prefixed by `'sentiment:' + source + ':'`.
Option values are modelled as JSON strings (the claims concern the ordering of
texts, tickers and option keys). -/

/-- Python `sorted` on a list of strings: lexicographic by code point, which
is the `LinearOrder` on `String`. -/
def sortedStrings (xs : List String) : List String :=
  xs.insertionSort (fun a b => a ≤ b)

/-- The order used by Python `sorted(options.items())` on (key, value) pairs:
lexicographic on the pair (value compared only on equal keys — unreachable for
dict items, whose keys are distinct). -/
def pairLE (a b : String × String) : Prop :=
  a.1 < b.1 ∨ (a.1 = b.1 ∧ a.2 ≤ b.2)

instance : DecidableRel pairLE := fun a b => by
  unfold pairLE; infer_instance

instance : IsTotal (String × String) pairLE := by
  constructor
  intro a b
  rcases lt_trichotomy a.1 b.1 with h | h | h
  · exact Or.inl (Or.inl h)
  · rcases le_total a.2 b.2 with h2 | h2
    · exact Or.inl (Or.inr ⟨h, h2⟩)
    · exact Or.inr (Or.inr ⟨h.symm, h2⟩)
  · exact Or.inr (Or.inl h)

instance : IsTrans (String × String) pairLE := by
  constructor
  intro a b c hab hbc
  rcases hab with h1 | ⟨h1, h1v⟩
  · rcases hbc with h2 | ⟨h2, _⟩
    · exact Or.inl (h1.trans h2)
    · exact Or.inl (h2 ▸ h1)
  · rcases hbc with h2 | ⟨h2, h2v⟩
    · exact Or.inl (h1 ▸ h2)
    · exact Or.inr ⟨h1.trans h2, h1v.trans h2v⟩

instance : IsAntisymm (String × String) pairLE := by
  constructor
  intro a b hab hba
  rcases hab with h1 | ⟨h1, h1v⟩
  · rcases hba with h2 | ⟨h2, _⟩
    · exact absurd (h1.trans h2) (lt_irrefl _)
    · exact absurd h1 (h2 ▸ lt_irrefl _)
  · rcases hba with h2 | ⟨h2, h2v⟩
    · exact absurd h2 (h1 ▸ lt_irrefl _)
    · exact Prod.ext h1 (le_antisymm h1v h2v)

/-- Python `sorted(options.items())`. -/
def sortedOptions (options : List (String × String)) : List (String × String) :=
  options.insertionSort pairLE

/-- One hex digit. -/
def hexDigit (n : ℕ) : Char :=
  if n < 10 then Char.ofNat (48 + n) else Char.ofNat (87 + n)

/-- Fixed-width lowercase hex rendering (most significant digit first). -/
def toHex : ℕ → ℕ → List Char
  | 0, _ => []
  | width + 1, n => hexDigit (n / 16 ^ width % 16) :: toHex width n

/-- JSON string escaping as performed by `json.dumps` with the default
`ensure_ascii=True`: `"` and `\` escaped, the common control characters by
short escapes, every other char below 0x20 and above 0x7E as `\uXXXX`
(non-BMP characters as a UTF-16 surrogate pair). -/
def jsonEscapeChar (c : Char) : List Char :=
  if c = '"' then ['\\', '"']
  else if c = '\\' then ['\\', '\\']
  else if c = Char.ofNat 8 then ['\\', 'b']
  else if c = Char.ofNat 9 then ['\\', 't']
  else if c = Char.ofNat 10 then ['\\', 'n']
  else if c = Char.ofNat 12 then ['\\', 'f']
  else if c = Char.ofNat 13 then ['\\', 'r']
  else if c.toNat < 32 ∨ 126 < c.toNat then
    if c.toNat < 65536 then '\\' :: 'u' :: toHex 4 c.toNat
    else
      let v := c.toNat - 65536
      ('\\' :: 'u' :: toHex 4 (55296 + v / 1024)) ++
        ('\\' :: 'u' :: toHex 4 (56320 + v % 1024))
  else [c]

/-- `json.dumps` rendering of a string literal. -/
def jsonString (s : String) : String :=
  ⟨'"' :: s.toList.flatMap jsonEscapeChar ++ ['"']⟩

/-- `json.dumps` rendering of a list of strings (default separator `, `). -/
def jsonStringList (xs : List String) : String :=
  "[" ++ String.intercalate ", " (xs.map jsonString) ++ "]"

/-- `json.dumps` rendering of a string-valued dict (separators `, ` / `: `). -/
def jsonStringDict (kvs : List (String × String)) : String :=
  "\x7b" ++
    String.intercalate ", "
      (kvs.map (fun kv => jsonString kv.1 ++ ": " ++ jsonString kv.2)) ++
  "\x7d"

/-- `json.dumps(cache_data, sort_keys=True)` for the `cache_data` dict of
`generate_cache_key`: keys emitted in sorted order
`options < source < texts < tickers`. -/
def cacheDataDumps (texts tickers : List String) (source : String)
    (options : List (String × String)) : String :=
  "\x7b\"options\": " ++ jsonStringDict options ++
  ", \"source\": " ++ jsonString source ++
  ", \"texts\": " ++ jsonStringList texts ++
  ", \"tickers\": " ++ jsonStringList tickers ++ "\x7d"

/-- UTF-8 encoding of one scalar value. -/
def utf8EncodeChar (c : Char) : List ℕ :=
  let v := c.toNat
  if v < 128 then [v]
  else if v < 2048 then [192 + v / 64, 128 + v % 64]
  else if v < 65536 then [224 + v / 4096, 128 + v / 64 % 64, 128 + v % 64]
  else [240 + v / 262144, 128 + v / 4096 % 64, 128 + v / 64 % 64, 128 + v % 64]

/-- `str.encode()`: UTF-8 bytes of a string. -/
def utf8Encode (s : String) : List ℕ :=
  s.toList.flatMap utf8EncodeChar

/-! ### SHA-256 (`hashlib.sha256`), over bytes as naturals below 256,
words as naturals below 2^32. -/

/-- Addition modulo 2^32. -/
def add32 (a b : ℕ) : ℕ := (a + b) % 4294967296

/-- Right rotation of a 32-bit word. -/
def rotr32 (n x : ℕ) : ℕ :=
  (x / 2 ^ n + x % 2 ^ n * 2 ^ (32 - n)) % 4294967296

/-- Bitwise complement of a 32-bit word. -/
def not32 (x : ℕ) : ℕ := 4294967295 - x

/-- SHA-256 round constants (decimal rendering of the standard words). -/
def sha256K : List ℕ :=
  [1116352408, 1899447441, 3049323471, 3921009573, 961987163, 1508970993,
   2453635748, 2870763221, 3624381080, 310598401, 607225278, 1426881987,
   1925078388, 2162078206, 2614888103, 3248222580, 3835390401, 4022224774,
   264347078, 604807628, 770255983, 1249150122, 1555081692, 1996064986,
   2554220882, 2821834349, 2952996808, 3210313671, 3336571891, 3584528711,
   113926993, 338241895, 666307205, 773529912, 1294757372, 1396182291,
   1695183700, 1986661051, 2177026350, 2456956037, 2730485921, 2820302411,
   3259730800, 3345764771, 3516065817, 3600352804, 4094571909, 275423344,
   430227734, 506948616, 659060556, 883997877, 958139571, 1322822218,
   1537002063, 1747873779, 1955562222, 2024104815, 2227730452, 2361852424,
   2428436474, 2756734187, 3204031479, 3329325298]

/-- SHA-256 initial hash value (decimal rendering of the standard words). -/
def sha256H0 : List ℕ :=
  [1779033703, 3144134277, 1013904242, 2773480762,
   1359893119, 2600822924, 528734635, 1541459225]

/-- Message padding: append `0x80`, zeros to 56 mod 64, and the bit length as
eight big-endian bytes. -/
def sha256Pad (msg : List ℕ) : List ℕ :=
  let len := msg.length
  let r := (len + 1) % 64
  let zeros := if r ≤ 56 then 56 - r else 120 - r
  let bitLen := len * 8
  msg ++ [128] ++ List.replicate zeros 0 ++
    (List.range 8).map (fun i => bitLen / 2 ^ (8 * (7 - i)) % 256)

/-- Split the padded message into 64-byte blocks (`fuel` bounds recursion by
the byte count). -/
def sha256BlocksAux : ℕ → List ℕ → List (List ℕ)
  | 0, _ => []
  | _, [] => []
  | fuel + 1, bs => bs.take 64 :: sha256BlocksAux fuel (bs.drop 64)

/-- The 64-byte blocks of a padded message. -/
def sha256Blocks (bs : List ℕ) : List (List ℕ) :=
  sha256BlocksAux bs.length bs

/-- The sixteen big-endian 32-bit words of one 64-byte block. -/
def blockWords (block : List ℕ) : List ℕ :=
  (List.range 16).map (fun i =>
    block.getD (4 * i) 0 * 16777216 + block.getD (4 * i + 1) 0 * 65536 +
      block.getD (4 * i + 2) 0 * 256 + block.getD (4 * i + 3) 0)

/-- One step of the message-schedule extension. -/
def scheduleStep (w : List ℕ) : List ℕ :=
  let n := w.length
  let s0 :=
    let x := w.getD (n - 15) 0
    Nat.xor (Nat.xor (rotr32 7 x) (rotr32 18 x)) (x / 2 ^ 3)
  let s1 :=
    let x := w.getD (n - 2) 0
    Nat.xor (Nat.xor (rotr32 17 x) (rotr32 19 x)) (x / 2 ^ 10)
  w ++ [add32 (add32 (w.getD (n - 16) 0) s0) (add32 (w.getD (n - 7) 0) s1)]

/-- The 64-word message schedule of one block. -/
def sha256Schedule (block : List ℕ) : List ℕ :=
  (List.range 48).foldl (fun w _ => scheduleStep w) (blockWords block)

/-- One compression round. -/
def sha256Round (st : List ℕ) (kw : ℕ × ℕ) : List ℕ :=
  let a := st.getD 0 0
  let b := st.getD 1 0
  let c := st.getD 2 0
  let d := st.getD 3 0
  let e := st.getD 4 0
  let f := st.getD 5 0
  let g := st.getD 6 0
  let h := st.getD 7 0
  let S1 := Nat.xor (Nat.xor (rotr32 6 e) (rotr32 11 e)) (rotr32 25 e)
  let ch := Nat.xor (Nat.land e f) (Nat.land (not32 e) g)
  let temp1 := add32 (add32 h S1) (add32 ch (add32 kw.1 kw.2))
  let S0 := Nat.xor (Nat.xor (rotr32 2 a) (rotr32 13 a)) (rotr32 22 a)
  let maj := Nat.xor (Nat.xor (Nat.land a b) (Nat.land a c)) (Nat.land b c)
  let temp2 := add32 S0 maj
  [add32 temp1 temp2, a, b, c, add32 d temp1, e, f, g]

/-- Compress one block into the running hash value. -/
def sha256Compress (h : List ℕ) (block : List ℕ) : List ℕ :=
  let w := sha256Schedule block
  let st := (sha256K.zip w).foldl sha256Round h
  (List.range 8).map (fun i => add32 (h.getD i 0) (st.getD i 0))

/-- `hashlib.sha256(bytes).hexdigest()`. -/
def sha256_hex (msg : List ℕ) : String :=
  let final := (sha256Blocks (sha256Pad msg)).foldl sha256Compress sha256H0
  ⟨final.flatMap (toHex 8)⟩

/-! ## utils/text_preprocessor.py — the reddit profile of `preprocess`

The compiled regular expressions are embedded as character scanners with the
matching semantics of `re.sub` / `re.findall` (leftmost, non-overlapping,
greedy).  Word characters are `[A-Za-z0-9_]`; `str.lower` is modelled on the
ASCII range (`Char.toLower`); whitespace is the ASCII whitespace set.
Scanners that restart after a multi-character match carry a fuel argument
bounded by the input length: every step consumes at least one input
character, so `fuel = length` always suffices and the scanners are total
functions agreeing with the Python originals. -/

/-- `[A-Za-z0-9_]` (the word characters of the patterns and of `\b`). -/
def isWordChar (c : Char) : Bool :=
  c.isAlpha || c.isDigit || c == '_'

/-- ASCII whitespace, the `\s` class: space, tab, newline, CR, VT, FF. -/
def isSpaceChar (c : Char) : Bool :=
  c == ' ' || c == Char.ofNat 9 || c == Char.ofNat 10 || c == Char.ofNat 13 ||
    c == Char.ofNat 11 || c == Char.ofNat 12

/-- If `t` starts with `pat`, the remainder after it. -/
def dropPre : List Char → List Char → Option (List Char)
  | [], t => some t
  | _, [] => none
  | p :: ps, c :: cs => if c = p then dropPre ps cs else none

/-- `str.replace(pat, repl)` — every occurrence, leftmost, non-overlapping.
(The patterns used are nonempty; for an empty pattern the scanner returns the
text unchanged.) -/
def replaceAllF (repl : List Char) : ℕ → List Char → List Char → List Char
  | 0, _, t => t
  | _, _, [] => []
  | fuel + 1, pat, c :: cs =>
    if pat.isEmpty then c :: cs
    else match dropPre pat (c :: cs) with
      | some rest => repl ++ replaceAllF repl fuel pat rest
      | none => c :: replaceAllF repl fuel pat cs

/-- `str.replace(pat, repl)`. -/
def replaceAll (pat repl t : List Char) : List Char :=
  replaceAllF repl t.length pat t

/-- `str.replace(pat, repl, 1)` — first occurrence only. -/
def replaceFirst (pat repl : List Char) : List Char → List Char
  | [] => []
  | c :: cs =>
    match dropPre pat (c :: cs) with
    | some rest => repl ++ rest
    | none => c :: replaceFirst pat repl cs

/-- `re.sub` of a character class repeated one-or-more (`[...]+`) by a fixed
replacement: each maximal run of class characters becomes one copy of
`repl`. -/
def collapseClassRuns (p : Char → Bool) (repl : List Char) :
    ℕ → List Char → List Char
  | 0, t => t
  | _, [] => []
  | fuel + 1, c :: cs =>
    if p c then repl ++ collapseClassRuns p repl fuel (cs.dropWhile p)
    else c :: collapseClassRuns p repl fuel cs

/-- `re.sub(r'[ch]{m,}', repl)`: each maximal run of `ch` of length at least
`m` becomes `repl`; shorter runs are kept. -/
def collapseMinRun (ch : Char) (m : ℕ) (repl : List Char) :
    ℕ → List Char → List Char
  | 0, t => t
  | _, [] => []
  | fuel + 1, c :: cs =>
    if c = ch then
      let n := 1 + (cs.takeWhile (fun x => x == ch)).length
      let rest := cs.dropWhile (fun x => x == ch)
      (if m ≤ n then repl else List.replicate n ch) ++
        collapseMinRun ch m repl fuel rest
    else c :: collapseMinRun ch m repl fuel cs

/-- `TextPreprocessor.emoji_sentiment` (text_preprocessor.py lines 56-74). -/
def emoji_sentiment : List (String × String) :=
  [("🚀", "very bullish rocket"), ("📈", "bullish chart up"),
   ("📉", "bearish chart down"), ("💎", "diamond hands hold"),
   ("🙌", "diamond hands"), ("📰", "news"), ("💰", "money profit"),
   ("💸", "money loss"), ("🔥", "hot trending"), ("⚡", "fast movement"),
   ("🌙", "to the moon bullish"), ("🐻", "bearish"), ("🐂", "bullish"),
   ("😭", "sad loss"), ("😂", "laughing"), ("🤡", "clown bad decision"),
   ("💀", "dead loss")]

/-- The `emoji_pattern` character class (text_preprocessor.py line 23). -/
def isEmojiChar (c : Char) : Bool :=
  (128512 ≤ c.toNat && c.toNat ≤ 128591) ||
  (127744 ≤ c.toNat && c.toNat ≤ 128511) ||
  (128640 ≤ c.toNat && c.toNat ≤ 128767) ||
  (127462 ≤ c.toNat && c.toNat ≤ 127487)

/-- `TextPreprocessor._convert_emojis_to_text` (lines 207-217): replace each
mapped emoji by `' ' + phrase + ' '`, then strip remaining emoji runs. -/
def convert_emojis_to_text (t : List Char) : List Char :=
  let t := emoji_sentiment.foldl
    (fun acc kv => replaceAll kv.1.toList (' ' :: kv.2.toList ++ [' ']) acc) t
  collapseClassRuns isEmojiChar [' '] t.length t

/-- `TextPreprocessor.slang_normalization` (lines 28-46), in insertion
order. -/
def slang_normalization : List (String × String) :=
  [("hodl", "hold"), ("stonks", "stocks"), ("tendies", "profits"),
   ("diamond hands", "strong hold"), ("paper hands", "weak sell"),
   ("to the moon", "very bullish"), ("ape", "retail investor"),
   ("retard", "trader"), ("autist", "trader"), ("yolo", "high risk bet"),
   ("fomo", "fear of missing out"), ("dd", "due diligence"),
   ("btfd", "buy the dip"), ("rekt", "lost money"),
   ("bag holder", "losing position"), ("pump and dump", "manipulation"),
   ("rug pull", "scam exit")]

/-- `re.sub(r'\b' + re.escape(pat) + r'\b', repl, text)` for a pattern that
begins and ends with a word character (true of every slang term): scan with
the previous original-string character to decide the left word boundary; on a
match, scanning resumes after the matched text, whose last character becomes
the new context. -/
def subWordBoundedF (pat repl : List Char) :
    ℕ → Option Char → List Char → List Char
  | 0, _, t => t
  | _, _, [] => []
  | fuel + 1, prev, c :: cs =>
    let boundaryBefore := match prev with
      | none => true
      | some p => !isWordChar p
    if pat.isEmpty then c :: cs
    else
      match (if boundaryBefore then dropPre pat (c :: cs) else none) with
      | some rest =>
        if (match rest with | [] => true | d :: _ => !isWordChar d) then
          repl ++ subWordBoundedF pat repl fuel pat.getLast? rest
        else c :: subWordBoundedF pat repl fuel (some c) cs
      | none => c :: subWordBoundedF pat repl fuel (some c) cs

/-- Word-boundary-delimited substitution (see `subWordBoundedF`). -/
def subWordBounded (pat repl t : List Char) : List Char :=
  subWordBoundedF pat repl t.length none t

/-- `TextPreprocessor._normalize_slang` (lines 219-230): lowercase the whole
text, then apply each word-bounded slang replacement in dict order. -/
def normalize_slang (t : List Char) : List Char :=
  slang_normalization.foldl
    (fun acc kv => subWordBounded kv.1.toList kv.2.toList acc)
    (t.map Char.toLower)

/-- The effective single-character class of `url_pattern`
(text_preprocessor.py line 19): `[a-zA-Z]`, `[0-9]`, the range `$`-`_`
(which already contains `%`, so the `%[0-9a-fA-F]{2}` alternative never adds
a character), and `@ . & + ! * ( ) ,` — of which only `!` lies outside the
`$`-`_` range. -/
def isUrlChar (c : Char) : Bool :=
  c.isAlpha || (36 ≤ c.toNat && c.toNat ≤ 95) || c == '!'

/-- Match `http[s]?://[class]+` at the head of `t`; on success return the
remainder.  (No backtracking is needed on `[s]?`: a remainder starting with
`s` never also starts with `://`.) -/
def matchUrl (t : List Char) : Option (List Char) :=
  (dropPre "http".toList t).bind fun r1 =>
    let r2 := match r1 with
      | 's' :: r => r
      | _ => r1
    (dropPre "://".toList r2).bind fun r3 =>
      match r3 with
      | [] => none
      | d :: ds => if isUrlChar d then some (ds.dropWhile isUrlChar) else none

/-- `self.url_pattern.sub(' ', text)` (line 113). -/
def sub_urls : ℕ → List Char → List Char
  | 0, t => t
  | _, [] => []
  | fuel + 1, c :: cs =>
    match matchUrl (c :: cs) with
    | some rest => ' ' :: sub_urls fuel rest
    | none => c :: sub_urls fuel cs

/-- `self.mention_pattern.sub(' user_mention ', text)` (line 116):
`@[A-Za-z0-9_]+` becomes `' user_mention '`. -/
def sub_mentions : ℕ → List Char → List Char
  | 0, t => t
  | _, [] => []
  | fuel + 1, c :: cs =>
    if c == '@' && (match cs with | d :: _ => isWordChar d | [] => false) then
      " user_mention ".toList ++ sub_mentions fuel (cs.dropWhile isWordChar)
    else c :: sub_mentions fuel cs

/-- `self.hashtag_pattern.sub(lambda m: m.group(0)[1:], text)` (line 119):
`#[A-Za-z0-9_]+` loses its `#`. -/
def sub_hashtags : ℕ → List Char → List Char
  | 0, t => t
  | _, [] => []
  | fuel + 1, c :: cs =>
    if c == '#' && (match cs with | d :: _ => isWordChar d | [] => false) then
      cs.takeWhile isWordChar ++ sub_hashtags fuel (cs.dropWhile isWordChar)
    else c :: sub_hashtags fuel cs

/-- Match `\$[A-Z]{1,5}\b` at the head of `t`: a `$`, a maximal run of 1-5
uppercase letters, and a word boundary.  The greedy quantifier with the
trailing `\b` matches exactly when the full uppercase run has length 1-5 and
the character after it (if any) is not a word character: every shorter
prefix of the run is followed by an uppercase letter, so backtracking never
helps.  On success, return the matched text and the remainder. -/
def matchTicker (t : List Char) : Option (List Char × List Char) :=
  match t with
  | '$' :: cs =>
    let run := cs.takeWhile (fun c => 65 ≤ c.toNat && c.toNat ≤ 90)
    let rest := cs.dropWhile (fun c => 65 ≤ c.toNat && c.toNat ≤ 90)
    if (decide (1 ≤ run.length) && decide (run.length ≤ 5) &&
        (match rest with | [] => true | d :: _ => !isWordChar d)) = true then
      some ('$' :: run, rest)
    else none
  | _ => none

/-- `self.ticker_pattern.findall(text)` (line 122). -/
def find_tickers : ℕ → List Char → List (List Char)
  | 0, _ => []
  | _, [] => []
  | fuel + 1, c :: cs =>
    match matchTicker (c :: cs) with
    | some (m, rest) => m :: find_tickers fuel rest
    | none => find_tickers fuel cs

/-- `self.ticker_pattern.sub(' TICKER_SYMBOL ', text)` (line 123). -/
def sub_tickers : ℕ → List Char → List Char
  | 0, t => t
  | _, [] => []
  | fuel + 1, c :: cs =>
    match matchTicker (c :: cs) with
    | some (_, rest) => " TICKER_SYMBOL ".toList ++ sub_tickers fuel rest
    | none => c :: sub_tickers fuel cs

/-- `str.strip()`: remove leading and trailing whitespace. -/
def stripChars (t : List Char) : List Char :=
  ((t.dropWhile isSpaceChar).reverse.dropWhile isSpaceChar).reverse

/-- `TextPreprocessor._basic_clean` (lines 188-205): lowercase, collapse
whitespace runs to one space, strip, collapse 3+ dots to `...` and 2+
hyphens to `--`. -/
def basic_clean (t : List Char) : List Char :=
  let t := t.map Char.toLower
  let t := collapseClassRuns isSpaceChar [' '] t.length t
  let t := stripChars t
  let t := collapseMinRun '.' 3 "...".toList t.length t
  let t := collapseMinRun '-' 2 "--".toList t.length t
  t

/-- `TextPreprocessor._preprocess_reddit` (lines 102-132): emoji conversion,
slang normalization, URL removal, mention replacement, hashtag stripping,
ticker extraction and placeholder substitution, basic cleaning, and
placeholder restoration (`text.replace('TICKER_SYMBOL', ticker, 1)` per
extracted ticker, in order). -/
def preprocess_reddit_core (t : List Char) : List Char :=
  let t := convert_emojis_to_text t
  let t := normalize_slang t
  let t := sub_urls t.length t
  let t := sub_mentions t.length t
  let t := sub_hashtags t.length t
  let tickers := find_tickers t.length t
  let t := sub_tickers t.length t
  let t := basic_clean t
  tickers.foldl (fun acc tk => replaceFirst "TICKER_SYMBOL".toList tk acc) t

/-- `TextPreprocessor.preprocess(text, source)` for `source = 'reddit'`
(lines 76-100): empty input returns the empty string; otherwise the dispatch
on `source.lower() == 'reddit'` selects `_preprocess_reddit`, and the result
is stripped. -/
def preprocess_reddit (text : String) : String :=
  if text = "" then ""
  else ⟨stripChars (preprocess_reddit_core text.toList)⟩

/-- `CacheManager.generate_cache_key` (cache_manager.py lines 46-72):
sort the texts, the tickers (`sorted(tickers) if tickers else []` equals
`sorted(tickers)` for every list) and the options items, serialize with
`json.dumps(..., sort_keys=True)`, SHA-256 the UTF-8 bytes, keep the first
16 hex digits, and prefix `self.key_prefix + source + ':'` with
`key_prefix = 'sentiment:'`. -/
def generate_cache_key (texts tickers : List String) (source : String)
    (options : List (String × String)) : String :=
  let cache_string :=
    cacheDataDumps (sortedStrings texts) (sortedStrings tickers) source
      (sortedOptions options)
  let cache_hash := (sha256_hex (utf8Encode cache_string)).take 16
  "sentiment:" ++ source ++ ":" ++ cache_hash

/-! ## Helper lemmas -/

/-- Insertion sort by a total, transitive, antisymmetric relation sends
permutation-equivalent lists to the same list. -/
theorem insertionSort_eq_of_perm {α : Type} (r : α → α → Prop) [DecidableRel r]
    [IsTotal α r] [IsTrans α r] [IsAntisymm α r] {l₁ l₂ : List α}
    (h : l₁.Perm l₂) : l₁.insertionSort r = l₂.insertionSort r :=
  List.eq_of_perm_of_sorted
    (((List.perm_insertionSort r l₁).trans h).trans
      (List.perm_insertionSort r l₂).symm)
    (List.sorted_insertionSort r l₁) (List.sorted_insertionSort r l₂)

/-- The ensemble accumulation loop computes the spec-side sums over the
contributing (error-free, weight-table) results, and collects their
confidences in order. -/
theorem ensemble_loop_eq (results : List (String × ModelResult)) :
    ensemble_loop results =
      (weighted_sum_spec results, total_weight_spec results,
        (contributing results).map (fun r => r.2.confidence)) := by
  induction results with
  | nil => rfl
  | cons hd tl ih =>
    obtain ⟨n, r⟩ := hd
    rcases hw : weightOf n with _ | w <;> cases hr : r.hasError <;>
      simp [ensemble_loop, hw, hr, contributing, weighted_sum_spec,
        total_weight_spec, List.filter_cons, ih]

/-- `sourceWeightOf` always lands in `[0, 1]`: the table values do, and the
default for unknown sources is `1/2`. -/
theorem sourceWeightOf_bounds (source : String) :
    0 ≤ sourceWeightOf source ∧ sourceWeightOf source ≤ 1 := by
  unfold sourceWeightOf source_weights
  simp only [List.lookup]
  repeat' split
  all_goals norm_num

/-- The code-side pairing equals the spec-side pairing. -/
theorem ticker_for_eq_spec (tickers : Option (List String)) (i : ℕ) :
    ticker_for tickers i = spec_pairing tickers i := by
  cases tickers with
  | none => rfl
  | some ts =>
    simp only [ticker_for, spec_pairing, Option.getD]
    split_ifs with h
    · simp [List.getElem?_eq_getElem h]
    · simp [List.getElem?_eq_none (Nat.le_of_not_lt h)]

/-- Length of the indexed analysis loop. -/
theorem analyze_batch_from_length {α : Type} (f : String → Option String → α)
    (tickers : Option (List String)) (texts : List String) (j : ℕ) :
    (analyze_batch_from f tickers j texts).length = texts.length := by
  induction texts generalizing j with
  | nil => rfl
  | cons hd tl ih => simp [analyze_batch_from, ih]

/-- Indexing the analysis loop started at offset `j`. -/
theorem analyze_batch_from_getElem {α : Type} (f : String → Option String → α)
    (tickers : Option (List String)) (texts : List String) (j i : ℕ) :
    (analyze_batch_from f tickers j texts)[i]? =
      texts[i]?.map (fun t => f t (ticker_for tickers (j + i))) := by
  induction texts generalizing j i with
  | nil => simp [analyze_batch_from]
  | cons hd tl ih =>
    cases i with
    | zero => simp [analyze_batch_from]
    | succ m =>
      simp only [analyze_batch_from, List.getElem?_cons_succ, ih (j + 1) m]
      have harith : j + 1 + m = j + (m + 1) := by omega
      rw [harith]

/-- Length of the indexed formatting loop. -/
theorem format_batch_from_length {α β : Type}
    (g : α → String → Option String → β) (original_texts : List String)
    (tickers : Option (List String)) (rs : List α) (j : ℕ) :
    (format_batch_from g original_texts tickers j rs).length = rs.length := by
  induction rs generalizing j with
  | nil => rfl
  | cons hd tl ih => simp [format_batch_from, ih]

/-- Indexing the formatting loop started at offset `j`. -/
theorem format_batch_from_getElem {α β : Type}
    (g : α → String → Option String → β) (original_texts : List String)
    (tickers : Option (List String)) (rs : List α) (j i : ℕ) :
    (format_batch_from g original_texts tickers j rs)[i]? =
      rs[i]?.map (fun r =>
        g r (text_for original_texts (j + i)) (ticker_for tickers (j + i))) := by
  induction rs generalizing j i with
  | nil => simp [format_batch_from]
  | cons hd tl ih =>
    cases i with
    | zero => simp [format_batch_from]
    | succ m =>
      simp only [format_batch_from, List.getElem?_cons_succ, ih (j + 1) m]
      have harith : j + 1 + m = j + (m + 1) := by omega
      rw [harith]

/-! ## Claim theorems -/

/-- C6.  Label deadband: the analyzer's `_score_to_label` and the response
formatter's `_score_to_label` are extensionally equal; the label is
`'bullish'` iff the score exceeds `0.1`, `'bearish'` iff it is below `-0.1`,
and `'neutral'` otherwise; in particular the boundary scores `0.1` and
`-0.1` both map to `'neutral'`. -/
theorem score_to_label_deadband (s : ℚ) :
    score_to_label s = formatter_score_to_label s ∧
    (score_to_label s = "bullish" ↔ 1/10 < s) ∧
    (score_to_label s = "bearish" ↔ s < -(1/10)) ∧
    (score_to_label s = "neutral" ↔ -(1/10) ≤ s ∧ s ≤ 1/10) ∧
    score_to_label (1/10 : ℚ) = "neutral" ∧
    score_to_label (-(1/10) : ℚ) = "neutral" := by
  refine ⟨rfl, ?_, ?_, ?_, by norm_num [score_to_label], by norm_num [score_to_label]⟩
  · unfold score_to_label
    split_ifs with h1 h2
    · exact iff_of_true rfl h1
    · exact iff_of_false (by decide) h1
    · exact iff_of_false (by decide) h1
  · unfold score_to_label
    split_ifs with h1 h2
    · exact iff_of_false (by decide) (by intro hc; linarith)
    · exact iff_of_true rfl h2
    · exact iff_of_false (by decide) h2
  · unfold score_to_label
    split_ifs with h1 h2
    · exact iff_of_false (by decide) (fun hc => absurd hc.2 (not_le.mpr h1))
    · exact iff_of_false (by decide) (fun hc => absurd hc.1 (not_le.mpr h2))
    · exact iff_of_true rfl ⟨le_of_not_lt h2, le_of_not_gt h1⟩

/-- C4.  Cache-key determinism and order-invariance: `generate_cache_key` is
a pure function of its inputs, unchanged under any permutation of the text
list, of the ticker list, and of the options items. -/
theorem generate_cache_key_order_invariant
    (texts₁ texts₂ tickers₁ tickers₂ : List String) (source : String)
    (opts₁ opts₂ : List (String × String))
    (ht : texts₁.Perm texts₂) (hk : tickers₁.Perm tickers₂)
    (ho : opts₁.Perm opts₂) :
    generate_cache_key texts₁ tickers₁ source opts₁ =
      generate_cache_key texts₂ tickers₂ source opts₂ := by
  unfold generate_cache_key
  rw [show sortedStrings texts₁ = sortedStrings texts₂ from
        insertionSort_eq_of_perm _ ht,
      show sortedStrings tickers₁ = sortedStrings tickers₂ from
        insertionSort_eq_of_perm _ hk,
      show sortedOptions opts₁ = sortedOptions opts₂ from
        insertionSort_eq_of_perm _ ho]

/-- C5.  Zero-provider defined default: when every model result carries an
error marker, the ensemble is score 0, label `'neutral'`, confidence 0 and
model agreement 0.5 — a defined value, not an error. -/
theorem ensemble_all_errors_default (results : List (String × ModelResult))
    (h : ∀ r ∈ results, r.2.hasError = true) :
    (calculate_ensemble_sentiment results).score = 0 ∧
    (calculate_ensemble_sentiment results).label = "neutral" ∧
    (calculate_ensemble_sentiment results).confidence = 0 ∧
    (calculate_ensemble_sentiment results).model_agreement = 1/2 := by
  have hfilter : results.filter (fun r => !r.2.hasError) = [] := by
    rw [List.filter_eq_nil_iff]
    intro r hr
    simp [h r hr]
  have hcontrib : contributing results = [] := by
    unfold contributing
    rw [List.filter_eq_nil_iff]
    intro r hr
    simp [h r hr]
  have hloop : ensemble_loop results = (0, 0, []) := by
    rw [ensemble_loop_eq]
    simp [weighted_sum_spec, total_weight_spec, hcontrib]
  have hagree : calculate_model_agreement results = 1/2 := by
    unfold calculate_model_agreement successful_scores
    rw [hfilter]
    norm_num
  unfold calculate_ensemble_sentiment
  rw [hloop]
  refine ⟨by norm_num, by norm_num [score_to_label], by norm_num, by simpa using hagree⟩

/-- C7.  Ensemble weighted mean: the ensemble score is
`Σ score_i·weight_i / Σ weight_i` over exactly the error-free results whose
id appears in the weight table; the table is
`finbert 0.4, vader 0.3, textblob 0.2, financial_lexicon 0.1`; an error-free
result with an id outside the table contributes to neither sum (its presence
leaves the score unchanged); total weight zero yields score 0. -/
theorem ensemble_weighted_mean (results : List (String × ModelResult)) :
    (calculate_ensemble_sentiment results).score =
      (if 0 < total_weight_spec results
        then weighted_sum_spec results / total_weight_spec results else 0) ∧
    (total_weight_spec results = 0 →
      (calculate_ensemble_sentiment results).score = 0) ∧
    (∀ (name : String) (r : ModelResult), weightOf name = none →
      (calculate_ensemble_sentiment ((name, r) :: results)).score =
        (calculate_ensemble_sentiment results).score) ∧
    weightOf "finbert" = some (2/5) ∧ weightOf "vader" = some (3/10) ∧
    weightOf "textblob" = some (1/5) ∧
    weightOf "financial_lexicon" = some (1/10) := by
  have hscore : ∀ rs : List (String × ModelResult),
      (calculate_ensemble_sentiment rs).score =
        (if 0 < total_weight_spec rs
          then weighted_sum_spec rs / total_weight_spec rs else 0) := by
    intro rs
    unfold calculate_ensemble_sentiment
    rw [ensemble_loop_eq]
  refine ⟨hscore results, ?_, ?_, rfl, rfl, rfl, rfl⟩
  · intro hz
    rw [hscore results, hz]
    norm_num
  · intro name r hw
    rw [hscore results, hscore ((name, r) :: results)]
    have hc : contributing ((name, r) :: results) = contributing results := by
      unfold contributing
      rw [List.filter_cons]
      simp [hw]
    unfold total_weight_spec weighted_sum_spec
    rw [hc]

/-- C8.  Model agreement: with fewer than two error-free scores the
agreement is exactly 0.5; otherwise it is `max(0, 1 − σ/2)` with `σ` the
population standard deviation of the error-free scores; in every case the
agreement lies in `[0, 1]`. -/
theorem model_agreement_spec (results : List (String × ModelResult)) :
    ((successful_scores results).length < 2 →
      calculate_model_agreement results = 1/2) ∧
    (2 ≤ (successful_scores results).length →
      calculate_model_agreement results =
        max 0 (1 - population_std (successful_scores results) / 2)) ∧
    0 ≤ calculate_model_agreement results ∧
    calculate_model_agreement results ≤ 1 := by
  have hstd : np_std (successful_scores results) =
      population_std (successful_scores results) := rfl
  unfold calculate_model_agreement
  dsimp only
  split_ifs with hlen
  · refine ⟨fun _ => rfl, fun h2 => absurd h2 (by omega), by norm_num, by norm_num⟩
  · refine ⟨fun hlt => absurd hlt hlen, fun _ => by rw [hstd], le_max_left 0 _, ?_⟩
    refine max_le zero_le_one ?_
    have hs : 0 ≤ np_std (successful_scores results) := Real.sqrt_nonneg _
    linarith

/-- C9.  Enhanced confidence: for every base confidence in `[0,1]`, source
string, text length and entity map, the enhanced confidence equals
`min(1, base · f_source · f_length · f_entity)` with the factors of the
specification (`f_source = 0.5 + 0.5·reliability`, unknown sources defaulting
to reliability 0.5; the piecewise length factor; the entity boost of 1.0
when no entity was extracted), and the result lies in `[0,1]`. -/
theorem enhanced_confidence_formula_bounds (base : ℚ) (source : String)
    (text_length : ℕ) (entities : List (String × EntityValue))
    (h0 : 0 ≤ base) (h1 : base ≤ 1) :
    calculate_enhanced_confidence base source text_length entities =
      min 1 (base * f_source_spec source * f_length_spec text_length *
        f_entity_spec entities) ∧
    0 ≤ calculate_enhanced_confidence base source text_length entities ∧
    calculate_enhanced_confidence base source text_length entities ≤ 1 := by
  obtain ⟨hw0, hw1⟩ := sourceWeightOf_bounds source
  have hfs : 0 ≤ f_source_spec source := by
    unfold f_source_spec; linarith
  have hfl : 0 ≤ f_length_spec text_length := by
    unfold f_length_spec
    split_ifs with ha hb
    · norm_num
    · have : (0 : ℚ) ≤ (text_length : ℚ) := Nat.cast_nonneg _
      have : (0 : ℚ) ≤ ((text_length : ℚ) / 50) * (3/10) := by positivity
      linarith
    · exact le_trans (by norm_num) (le_max_left (4/5) _)
  have hfe : 0 ≤ f_entity_spec entities := by
    unfold f_entity_spec
    split_ifs with hc
    · have : (0 : ℚ) ≤ (entity_count entities : ℚ) := Nat.cast_nonneg _
      have h65 : (0 : ℚ) ≤ 6/5 := by norm_num
      have : (0 : ℚ) ≤ 1 + (entity_count entities : ℚ) * (1/20) := by positivity
      exact le_min h65 this
    · norm_num
  have heq : calculate_enhanced_confidence base source text_length entities =
      min 1 (base * f_source_spec source * f_length_spec text_length *
        f_entity_spec entities) := by
    unfold calculate_enhanced_confidence f_source_spec f_length_spec
      f_entity_spec
    dsimp only
    split_ifs with ha hb hc hc hc
    all_goals rw [min_comm]
    all_goals congr 1
    all_goals ring
  refine ⟨heq, ?_, ?_⟩
  · rw [heq]
    have : 0 ≤ base * f_source_spec source * f_length_spec text_length *
        f_entity_spec entities := by positivity
    exact le_min (by norm_num) this
  · rw [heq]
    exact min_le_left 1 _

/-- C10.  Batch pairing tolerates mismatched ticker lists: `analyze_batch`
returns one result per text in input order, pairing index `i` with
`tickers[i]` when that index exists and with `None` otherwise (including
absent or shorter ticker lists), never failing on a length mismatch; the
per-item loop of `format_batch_results` applies the same index-based
pairing (with the empty string standing in for a missing original text). -/
theorem batch_pairing_tolerates_mismatch {α β : Type}
    (f : String → Option String → α) (g : α → String → Option String → β)
    (texts : List String) (tickers : Option (List String))
    (analysis_results : List α) (original_texts : List String) :
    (analyze_batch f texts tickers).length = texts.length ∧
    (∀ i : ℕ, (analyze_batch f texts tickers)[i]? =
      texts[i]?.map (fun t => f t (spec_pairing tickers i))) ∧
    (format_batch_results g analysis_results original_texts tickers).length =
      analysis_results.length ∧
    (∀ i : ℕ,
      (format_batch_results g analysis_results original_texts tickers)[i]? =
        analysis_results[i]?.map (fun r =>
          g r (text_for original_texts i) (spec_pairing tickers i))) := by
  refine ⟨analyze_batch_from_length f tickers texts 0, fun i => ?_,
    format_batch_from_length g original_texts tickers analysis_results 0,
    fun i => ?_⟩
  · rw [show analyze_batch f texts tickers =
        analyze_batch_from f tickers 0 texts from rfl,
      analyze_batch_from_getElem f tickers texts 0 i]
    simp [ticker_for_eq_spec]
  · rw [show format_batch_results g analysis_results original_texts tickers =
        format_batch_from g original_texts tickers 0 analysis_results from rfl,
      format_batch_from_getElem g original_texts tickers analysis_results 0 i]
    simp [ticker_for_eq_spec]

/-- C1.  The reddit preprocessing pipeline does not preserve ticker casing:
`_normalize_slang` lowercases the whole text before the ticker pattern
`\$[A-Z]{1,5}\b` is applied, so the ticker `$TSLA` is never extracted and
reaches the output lowercased — the input's ticker does not occur verbatim
in the result. -/
theorem preprocess_reddit_drops_ticker_casing :
    preprocess_reddit "$TSLA" = "$tsla" ∧
    ¬ List.IsInfix "$TSLA".toList (preprocess_reddit "$TSLA").toList := by
  decide

/-- C2.  The in-process backend ignores the per-entry TTL on read: an entry
stored with `ttl = 1` at time 0 is still returned by `get` at time 2 (the
expiry test compares the age to `default_ttl = 1800`, not to the entry's own
`ttl` field, which the stored wrapper plainly records as 1). -/
theorem mem_cache_ignores_per_entry_ttl :
    (mem_get (mem_set (mem_init : MemCache String) "k" "v" (some 1) 0)
        "k" 2).1 = some ⟨"v", 0, 1⟩ ∧
    (mem_get (mem_set (mem_init : MemCache String) "k" "v" (some 1) 0)
        "k" 2).1 ≠ none := by
  decide

/-- C3.  A cache hit returns the metadata wrapper, not the stored payload:
after `set(key, "payload")`, a non-expired `get(key)` yields
`{'data': "payload", 'cached_at': ..., 'ttl': 1800}` rather than
`"payload"` itself. -/
theorem mem_cache_hit_returns_wrapper :
    (mem_get (mem_set (mem_init : MemCache String) "k" "payload" none 5)
        "k" 5).1 = some ⟨"payload", 5, 1800⟩ := by
  decide

/-! ## Witnesses -/

/-- Witness for C4 at the spec's example `["b","a"]` vs `["a","b"]`. -/
theorem generate_cache_key_order_invariant_witness :
    (["b", "a"].Perm ["a", "b"]) ∧
    generate_cache_key ["b", "a"] ["Y", "X"] "reddit"
        [("k2", "v2"), ("k1", "v1")] =
      generate_cache_key ["a", "b"] ["X", "Y"] "reddit"
        [("k1", "v1"), ("k2", "v2")] :=
  ⟨by decide,
    generate_cache_key_order_invariant _ _ _ _ _ _ _ (by decide) (by decide)
      (by decide)⟩

/-- Witness for C5 on two errored results. -/
theorem ensemble_all_errors_default_witness :
    (calculate_ensemble_sentiment
        [("finbert", ⟨0, 0, true⟩), ("vader", ⟨1/2, 1/2, true⟩)]).score = 0 ∧
    (calculate_ensemble_sentiment
        [("finbert", ⟨0, 0, true⟩), ("vader", ⟨1/2, 1/2, true⟩)]).label =
      "neutral" ∧
    (calculate_ensemble_sentiment
        [("finbert", ⟨0, 0, true⟩), ("vader", ⟨1/2, 1/2, true⟩)]).confidence =
      0 ∧
    (calculate_ensemble_sentiment
        [("finbert", ⟨0, 0, true⟩),
          ("vader", ⟨1/2, 1/2, true⟩)]).model_agreement = 1/2 :=
  ensemble_all_errors_default _ (by decide)

/-- Witness for C7: the score formula on a singleton, and the zero-weight
default on a result whose id is outside the weight table. -/
theorem ensemble_weighted_mean_witness :
    ((calculate_ensemble_sentiment [("finbert", ⟨1/2, 1, false⟩)]).score =
      (if 0 < total_weight_spec [("finbert", ⟨1/2, 1, false⟩)]
        then weighted_sum_spec [("finbert", ⟨1/2, 1, false⟩)] /
          total_weight_spec [("finbert", ⟨1/2, 1, false⟩)]
        else 0)) ∧
    (calculate_ensemble_sentiment [("custom", ⟨1/2, 1, false⟩)]).score = 0 :=
  ⟨(ensemble_weighted_mean _).1,
    (ensemble_weighted_mean [("custom", ⟨1/2, 1, false⟩)]).2.1 (by decide)⟩

/-- Witness for C8 on a single error-free score (fewer than two samples). -/
theorem model_agreement_spec_witness :
    calculate_model_agreement [("finbert", ⟨1/2, 1, false⟩)] = 1/2 ∧
    0 ≤ calculate_model_agreement [("finbert", ⟨1/2, 1, false⟩)] ∧
    calculate_model_agreement [("finbert", ⟨1/2, 1, false⟩)] ≤ 1 :=
  ⟨(model_agreement_spec _).1 (by decide),
    (model_agreement_spec [("finbert", ⟨1/2, 1, false⟩)]).2.2.1,
    (model_agreement_spec [("finbert", ⟨1/2, 1, false⟩)]).2.2.2⟩

/-- Witness for C9 at base 1/2, source `reddit`, length 10, one entity. -/
theorem enhanced_confidence_formula_bounds_witness :
    calculate_enhanced_confidence (1/2) "reddit" 10
        [("tickers", EntityValue.strs ["AAPL"])] =
      min 1 ((1/2) * f_source_spec "reddit" * f_length_spec 10 *
        f_entity_spec [("tickers", EntityValue.strs ["AAPL"])]) ∧
    0 ≤ calculate_enhanced_confidence (1/2) "reddit" 10
        [("tickers", EntityValue.strs ["AAPL"])] ∧
    calculate_enhanced_confidence (1/2) "reddit" 10
        [("tickers", EntityValue.strs ["AAPL"])] ≤ 1 :=
  enhanced_confidence_formula_bounds (1/2) "reddit" 10 _ one_half_pos.le
    one_half_lt_one.le

end HRVSTR
